import Mathlib

/-!
Shallow embedding of the chat-session lifecycle and agent-capacity core of
the mmeink backend (accounts/models.py and chat/models.py).

Timestamps are modelled as integer seconds (`Int`); Django `DateTimeField`
columns that may be NULL become `Option Int`.  `int(delta.total_seconds())`
on integer-second timestamps is exact subtraction.  Python truthiness of a
nullable `CharField` (`not self.resume_token`) is `none` or the empty
string; a non-null datetime is always truthy.  Fields irrelevant to the
lifecycle methods (avatars, JSON metadata, decimal ratings, auto-managed
`updated_at`) are omitted.
-/

namespace Mmeink

/-- accounts/models.py `User`: the agent record.  Counts are Django
`IntegerField`s, modelled as `Int` (the `MinValueValidator(0)` is a form
validator, not enforced by the methods). -/
structure User where
  id : Nat
  role : String
  status : String
  is_available : Bool
  current_chats_count : Int
  max_concurrent_chats : Int
  total_chats_handled : Int
  total_ratings : Int
  deriving DecidableEq

/-- accounts/models.py `User.can_accept_chat`. -/
def can_accept_chat (u : User) : Bool :=
  u.is_available && u.status == "online" &&
    decide (u.current_chats_count < u.max_concurrent_chats)

/-- accounts/models.py `User.increment_chat_count`: unconditionally adds one
to both `current_chats_count` and `total_chats_handled`. -/
def increment_chat_count (u : User) : User :=
  { u with current_chats_count := u.current_chats_count + 1,
           total_chats_handled := u.total_chats_handled + 1 }

/-- accounts/models.py `User.decrement_chat_count`: subtracts one from
`current_chats_count` only when it is positive. -/
def decrement_chat_count (u : User) : User :=
  if u.current_chats_count > 0 then
    { u with current_chats_count := u.current_chats_count - 1 }
  else u

/-- chat/models.py `ChatSession`.  `assigned_agent` inlines the referenced
`User` row (the foreign key with its target). -/
structure ChatSession where
  status : String
  priority : String
  assigned_agent : Option User
  resume_token : Option String
  resume_token_expires_at : Option Int
  is_abandoned : Bool
  is_resumed : Bool
  requires_followup : Bool
  created_at : Int
  first_response_at : Option Int
  closed_at : Option Int
  wait_time_seconds : Option Int
  response_time_seconds : Option Int
  total_duration_seconds : Option Int
  message_count : Int
  deriving DecidableEq

/-- chat/models.py `ChatSession.generate_resume_token`: `timezone.now()` is
the explicit `now`, and `secrets.token_urlsafe(32)` is the explicit `tok`;
expiry is now plus 24 hours (86400 seconds). -/
def generate_resume_token (now : Int) (tok : String) (s : ChatSession) : ChatSession :=
  { s with resume_token := some tok,
           resume_token_expires_at := some (now + 24 * 3600) }

/-- chat/models.py `ChatSession.is_resume_token_valid`: Python checks
`not self.resume_token or not self.resume_token_expires_at` first (a `none`
or empty-string token is falsy), then `now < expires_at` strictly. -/
def is_resume_token_valid (now : Int) (s : ChatSession) : Bool :=
  match s.resume_token, s.resume_token_expires_at with
  | some tok, some e => if tok = "" then false else decide (now < e)
  | _, _ => false

/-- chat/models.py `ChatSession.mark_abandoned`: guarded on status
`waiting`. -/
def mark_abandoned (s : ChatSession) : ChatSession :=
  if s.status = "waiting" then
    { s with is_abandoned := true, status := "abandoned" }
  else s

/-- chat/models.py `ChatSession.calculate_wait_time`: writes
`first_response_at - created_at` when `first_response_at` is set (a non-null
datetime is truthy) and status is in `[assigned, active, closed]`. -/
def calculate_wait_time (s : ChatSession) : ChatSession :=
  match s.first_response_at with
  | some fr =>
      if s.status ∈ ["assigned", "active", "closed"] then
        { s with wait_time_seconds := some (fr - s.created_at) }
      else s
  | none => s

/-- chat/models.py `ChatSession.close_session`: unconditionally sets status
`closed`, `closed_at := now`, recomputes `total_duration_seconds`
(`created_at` is `auto_now_add`, always set, so the `if self.created_at:`
guard always holds), then decrements the assigned agent's count if any. -/
def close_session (now : Int) (s : ChatSession) : ChatSession :=
  let s1 : ChatSession :=
    { s with status := "closed",
             closed_at := some now,
             total_duration_seconds := some (now - s.created_at) }
  match s1.assigned_agent with
  | some a => { s1 with assigned_agent := some (decrement_chat_count a) }
  | none => s1

/-- chat/models.py `ChatQueue`: the queue entry row (session reference
omitted; ordering fields kept). -/
structure ChatQueue where
  priority : Int
  queue_position : Int
  status : String
  entered_queue_at : Int
  assigned_at : Option Int
  wait_time_seconds : Int
  deriving DecidableEq

/-- chat/models.py `ChatQueue.Meta.ordering = [-priority, entered_queue_at]`:
entry `a` sorts no later than entry `b` when `a` has strictly higher numeric
priority, or equal priority and no later queue-entry time. -/
def queueBefore (a b : ChatQueue) : Prop :=
  b.priority < a.priority ∨
    (a.priority = b.priority ∧ a.entered_queue_at ≤ b.entered_queue_at)

instance decQueueBefore : DecidableRel queueBefore := fun a b =>
  decidable_of_iff
    (b.priority < a.priority ∨
      (a.priority = b.priority ∧ a.entered_queue_at ≤ b.entered_queue_at))
    Iff.rfl

instance : IsTotal ChatQueue queueBefore :=
  ⟨fun a b => by
    unfold queueBefore
    rcases lt_trichotomy a.priority b.priority with h | h | h
    · exact Or.inr (Or.inl h)
    · rcases le_total a.entered_queue_at b.entered_queue_at with h2 | h2
      · exact Or.inl (Or.inr ⟨h, h2⟩)
      · exact Or.inr (Or.inr ⟨h.symm, h2⟩)
    · exact Or.inl (Or.inl h)⟩

instance : IsTrans ChatQueue queueBefore :=
  ⟨fun a b c hab hbc => by
    unfold queueBefore at hab hbc ⊢
    rcases hab with h1 | ⟨h1, h1t⟩ <;> rcases hbc with h2 | ⟨h2, h2t⟩
    · exact Or.inl (h2.trans h1)
    · exact Or.inl (by omega)
    · exact Or.inl (by omega)
    · exact Or.inr ⟨h1.trans h2, h1t.trans h2t⟩⟩

/-- Modelled from the spec: the enqueue step (Dispatcher / view code, not
under src/) derives the QueueEntry numeric priority from the session
priority enum, higher number meaning higher priority, with
urgent > high > normal > low. -/
def priorityNum : String → Int
  | "urgent" => 3
  | "high" => 2
  | "normal" => 1
  | _ => 0

/-- Modelled from the spec: `tryReserveSlot` (the Agent Registry operation
the Dispatcher calls; the Dispatcher is not under src/) atomically checks
`can_accept_chat` and, on success, performs `increment_chat_count`,
returning true; otherwise it returns false with no mutation. -/
def tryReserveSlot (u : User) : User × Bool :=
  if can_accept_chat u then (increment_chat_count u, true) else (u, false)

/-- A step of the Agent Registry: the two mutators of
`current_chats_count`. -/
inductive RegistryOp
  | inc
  | dec
  deriving DecidableEq

/-- Apply one registry operation to an agent. -/
def applyRegistryOp (u : User) : RegistryOp → User
  | RegistryOp.inc => increment_chat_count u
  | RegistryOp.dec => decrement_chat_count u

/-- Apply a sequence of registry operations to an agent. -/
def applyRegistryOps (u : User) (ops : List RegistryOp) : User :=
  ops.foldl applyRegistryOp u

/- Concrete states used by counterexamples and witnesses. -/

/-- A concrete online agent with spare capacity and two open chats. -/
def agentA : User :=
  { id := 1, role := "agent", status := "online", is_available := true,
    current_chats_count := 2, max_concurrent_chats := 5,
    total_chats_handled := 7, total_ratings := 0 }

/-- A concrete agent at full capacity. -/
def agentFull : User :=
  { id := 2, role := "agent", status := "online", is_available := true,
    current_chats_count := 5, max_concurrent_chats := 5,
    total_chats_handled := 40, total_ratings := 0 }

/-- A concrete active session assigned to `agentA`. -/
def sessionA : ChatSession :=
  { status := "active", priority := "normal", assigned_agent := some agentA,
    resume_token := none, resume_token_expires_at := none,
    is_abandoned := false, is_resumed := false, requires_followup := false,
    created_at := 0, first_response_at := some 4, closed_at := none,
    wait_time_seconds := none, response_time_seconds := none,
    total_duration_seconds := none, message_count := 3 }

/-- A concrete session that has already been closed at time 10. -/
def sessionClosed : ChatSession :=
  { status := "closed", priority := "normal", assigned_agent := none,
    resume_token := none, resume_token_expires_at := none,
    is_abandoned := false, is_resumed := false, requires_followup := false,
    created_at := 0, first_response_at := some 4, closed_at := some 10,
    wait_time_seconds := none, response_time_seconds := none,
    total_duration_seconds := some 10, message_count := 3 }

/-- A concrete waiting session. -/
def sessionWaiting : ChatSession :=
  { status := "waiting", priority := "normal", assigned_agent := none,
    resume_token := none, resume_token_expires_at := none,
    is_abandoned := false, is_resumed := false, requires_followup := false,
    created_at := 0, first_response_at := none, closed_at := none,
    wait_time_seconds := none, response_time_seconds := none,
    total_duration_seconds := none, message_count := 0 }

/-- A concrete assigned session with a first response at time 4. -/
def sessionAssigned : ChatSession :=
  { status := "assigned", priority := "normal", assigned_agent := some agentA,
    resume_token := none, resume_token_expires_at := none,
    is_abandoned := false, is_resumed := false, requires_followup := false,
    created_at := 0, first_response_at := some 4, closed_at := none,
    wait_time_seconds := none, response_time_seconds := none,
    total_duration_seconds := none, message_count := 1 }

/-- A concrete session holding a resume token that expires at time 100. -/
def sessionToken : ChatSession :=
  { status := "bot", priority := "normal", assigned_agent := none,
    resume_token := some "abc", resume_token_expires_at := some 100,
    is_abandoned := false, is_resumed := false, requires_followup := false,
    created_at := 0, first_response_at := none, closed_at := none,
    wait_time_seconds := none, response_time_seconds := none,
    total_duration_seconds := none, message_count := 0 }

/-- A concrete pending queue entry at normal priority, entered at 100. -/
def normalEntry : ChatQueue :=
  { priority := priorityNum "normal", queue_position := 1, status := "pending",
    entered_queue_at := 100, assigned_at := none, wait_time_seconds := 0 }

/-- A concrete pending queue entry at urgent priority, entered later,
at 105. -/
def urgentEntry : ChatQueue :=
  { priority := priorityNum "urgent", queue_position := 2, status := "pending",
    entered_queue_at := 105, assigned_at := none, wait_time_seconds := 0 }

/- Theorems. -/

/-- C1 counterexample: `close_session` has no already-closed guard, so a
second call on `sessionA` (already closed at time 10) at time 20 changes the
state: `closed_at` and `total_duration_seconds` move to time 20 and the
agent's `current_chats_count` is decremented once more. -/
theorem c1_close_session_not_idempotent :
    close_session 20 (close_session 10 sessionA) ≠ close_session 10 sessionA := by
  decide

/-- C1 (amended): `close_session` is not idempotent.  A second call at time
`t₂` after a first call at `t₁` keeps status `closed` but re-stamps
`closed_at := t₂`, recomputes `total_duration_seconds := t₂ - created_at`,
and decrements the assigned agent's `current_chats_count` once more (a no-op
only when the count is already 0, by `decrement_chat_count`'s guard). -/
theorem c1_close_session_second_call (s : ChatSession) (t₁ t₂ : Int) :
    (close_session t₂ (close_session t₁ s)).status = "closed" ∧
    (close_session t₂ (close_session t₁ s)).closed_at = some t₂ ∧
    (close_session t₂ (close_session t₁ s)).total_duration_seconds
      = some (t₂ - s.created_at) ∧
    (close_session t₂ (close_session t₁ s)).assigned_agent
      = Option.map decrement_chat_count (close_session t₁ s).assigned_agent := by
  unfold close_session
  cases s.assigned_agent <;> simp

/-- C2 counterexample: `increment_chat_count` has no capacity guard; on an
agent already at `max_concurrent_chats` it pushes `current_chats_count`
strictly above the maximum. -/
theorem c2_increment_exceeds_max :
    (increment_chat_count agentFull).current_chats_count
      > agentFull.max_concurrent_chats := by
  decide

/-- C2 (amended): the lower bound is preserved by both registry operations
(`decrement_chat_count` is a no-op at 0), and the upper bound is preserved
by `decrement_chat_count` always but by `increment_chat_count` only when the
`can_accept_chat` precondition held beforehand; an unguarded increment can
exceed `max_concurrent_chats`. -/
theorem c2_count_bounds (u : User) :
    (0 ≤ u.current_chats_count →
      0 ≤ (increment_chat_count u).current_chats_count) ∧
    (0 ≤ u.current_chats_count →
      0 ≤ (decrement_chat_count u).current_chats_count) ∧
    (u.current_chats_count ≤ u.max_concurrent_chats →
      (decrement_chat_count u).current_chats_count ≤ u.max_concurrent_chats) ∧
    (can_accept_chat u = true →
      (increment_chat_count u).current_chats_count ≤ u.max_concurrent_chats) := by
  unfold increment_chat_count decrement_chat_count can_accept_chat
  refine ⟨?_, ?_, ?_, ?_⟩ <;> intro h
  · simpa using by omega
  · split <;> (try simp) <;> omega
  · split <;> (try simp) <;> omega
  · simp only [Bool.and_eq_true, decide_eq_true_eq] at h
    simpa using by omega

/-- C2 witness: both bounds hold after a guarded increment on `agentA`. -/
theorem c2_count_bounds_witness :
    0 ≤ (increment_chat_count agentA).current_chats_count ∧
    (increment_chat_count agentA).current_chats_count
      ≤ agentA.max_concurrent_chats :=
  ⟨(c2_count_bounds agentA).1 (by decide),
   (c2_count_bounds agentA).2.2.2 (by decide)⟩

/-- C3: `tryReserveSlot` succeeds exactly when `is_available`, status
`online` and `current_chats_count < max_concurrent_chats` held beforehand
(the `can_accept_chat` check); on success it increments both
`current_chats_count` and `total_chats_handled`, otherwise it returns false
and mutates nothing. -/
theorem c3_tryReserveSlot_correct (u : User) :
    (can_accept_chat u = true ↔
      (u.is_available = true ∧ u.status = "online" ∧
        u.current_chats_count < u.max_concurrent_chats)) ∧
    (can_accept_chat u = true →
      tryReserveSlot u =
        ({ u with current_chats_count := u.current_chats_count + 1,
                  total_chats_handled := u.total_chats_handled + 1 }, true)) ∧
    (can_accept_chat u = false → tryReserveSlot u = (u, false)) := by
  refine ⟨?_, ?_, ?_⟩
  · unfold can_accept_chat
    simp [Bool.and_eq_true, and_assoc]
  · intro h
    unfold tryReserveSlot increment_chat_count
    simp [h]
  · intro h
    unfold tryReserveSlot
    simp [h]

/-- C3 witness: reservation succeeds on `agentA` (capacity free) and fails
with no mutation on `agentFull` (at capacity). -/
theorem c3_tryReserveSlot_witness :
    tryReserveSlot agentA =
      ({ agentA with current_chats_count := agentA.current_chats_count + 1,
                     total_chats_handled := agentA.total_chats_handled + 1 }, true) ∧
    tryReserveSlot agentFull = (agentFull, false) :=
  ⟨(c3_tryReserveSlot_correct agentA).2.1 (by decide),
   (c3_tryReserveSlot_correct agentFull).2.2 (by decide)⟩

/-- Helper: `decrement_chat_count` never changes the agent's identity. -/
theorem decrement_chat_count_id (a : User) :
    (decrement_chat_count a).id = a.id := by
  unfold decrement_chat_count
  split <;> rfl

/-- Helper: when the guard holds, `calculate_wait_time` writes
`first_response_at - created_at`. -/
theorem calculate_wait_time_write (s : ChatSession) (fr : Int)
    (hf : s.first_response_at = some fr)
    (hst : s.status ∈ ["assigned", "active", "closed"]) :
    calculate_wait_time s =
      { s with wait_time_seconds := some (fr - s.created_at) } := by
  unfold calculate_wait_time
  rw [hf]
  simp [hst]

/-- Helper: when the guard fails, `calculate_wait_time` changes nothing. -/
theorem calculate_wait_time_noop (s : ChatSession)
    (h : s.first_response_at = none ∨
      s.status ∉ ["assigned", "active", "closed"]) :
    calculate_wait_time s = s := by
  unfold calculate_wait_time
  rcases h with h | h
  · rw [h]
  · cases s.first_response_at <;> simp [h]

/-- Helper: `calculate_wait_time` never changes the status. -/
theorem calculate_wait_time_status (s : ChatSession) :
    (calculate_wait_time s).status = s.status := by
  rcases hf : s.first_response_at with _ | fr
  · rw [calculate_wait_time_noop s (Or.inl hf)]
  · by_cases hst : s.status ∈ ["assigned", "active", "closed"]
    · rw [calculate_wait_time_write s fr hf hst]
    · rw [calculate_wait_time_noop s (Or.inr hst)]

/-- Helper: `calculate_wait_time` never changes `closed_at`. -/
theorem calculate_wait_time_closed_at (s : ChatSession) :
    (calculate_wait_time s).closed_at = s.closed_at := by
  rcases hf : s.first_response_at with _ | fr
  · rw [calculate_wait_time_noop s (Or.inl hf)]
  · by_cases hst : s.status ∈ ["assigned", "active", "closed"]
    · rw [calculate_wait_time_write s fr hf hst]
    · rw [calculate_wait_time_noop s (Or.inr hst)]

/-- C4 counterexample: on a session already closed at time 10, a second
`close_session` at time 25 changes the metric field
`total_duration_seconds`, contradicting "once closed no operation changes
its status, assigned_agent, or metric fields". -/
theorem c4_closed_metrics_mutate :
    (close_session 25 sessionClosed).total_duration_seconds
      ≠ sessionClosed.total_duration_seconds := by
  decide

/-- C4 (amended): `closed_at` is non-null iff status = closed, and this
invariant is preserved by all three operations; once closed,
`mark_abandoned` changes nothing, no operation changes the status or the
assigned-agent reference, `calculate_wait_time` leaves the other metrics
alone and writes `wait_time_seconds` only to the fixed value
`first_response_at - created_at`; but a repeated `close_session` re-stamps
`closed_at` and `total_duration_seconds` (and decrements the agent's count
again), so metric immutability after closure fails. -/
theorem c4_closed_invariants (s : ChatSession) (t : Int) :
    ((close_session t s).closed_at.isSome ∧ (close_session t s).status = "closed") ∧
    ((s.closed_at.isSome ↔ s.status = "closed") →
      ((mark_abandoned s).closed_at.isSome ↔ (mark_abandoned s).status = "closed")) ∧
    ((s.closed_at.isSome ↔ s.status = "closed") →
      ((calculate_wait_time s).closed_at.isSome ↔
        (calculate_wait_time s).status = "closed")) ∧
    (s.status = "closed" → mark_abandoned s = s) ∧
    (s.status = "closed" →
      (calculate_wait_time s).status = "closed" ∧
      (calculate_wait_time s).assigned_agent = s.assigned_agent ∧
      (calculate_wait_time s).response_time_seconds = s.response_time_seconds ∧
      (calculate_wait_time s).total_duration_seconds = s.total_duration_seconds ∧
      (calculate_wait_time s).wait_time_seconds =
        (match s.first_response_at with
         | some fr => some (fr - s.created_at)
         | none => s.wait_time_seconds)) ∧
    (s.status = "closed" →
      (close_session t s).status = "closed" ∧
      Option.map User.id (close_session t s).assigned_agent
        = Option.map User.id s.assigned_agent ∧
      (close_session t s).wait_time_seconds = s.wait_time_seconds ∧
      (close_session t s).response_time_seconds = s.response_time_seconds) := by
  refine ⟨?_, ?_, ?_, ?_, ?_, ?_⟩
  · unfold close_session
    cases s.assigned_agent <;> simp
  · intro h
    unfold mark_abandoned
    split
    · simp_all
    · exact h
  · intro h
    rw [calculate_wait_time_closed_at, calculate_wait_time_status]
    exact h
  · intro h
    unfold mark_abandoned
    simp [h]
  · intro h
    unfold calculate_wait_time
    cases s.first_response_at <;> simp [h]
  · intro h
    unfold close_session
    cases s.assigned_agent <;> simp [decrement_chat_count_id]

/-- C4 witness: the preserved parts at the concrete closed session. -/
theorem c4_closed_invariants_witness :
    mark_abandoned sessionClosed = sessionClosed ∧
    (close_session 25 sessionClosed).status = "closed" := by
  obtain ⟨h1, h2, h3, h4, h5, h6⟩ := c4_closed_invariants sessionClosed 25
  exact ⟨h4 rfl, (h6 rfl).1⟩

/-- C5: `close_session` sets status closed, stamps `closed_at` with the call
time, sets `total_duration_seconds = closed_at - created_at`, applies
`decrement_chat_count` to the assigned agent (which subtracts one exactly
when the count is positive, else changes nothing), and changes no agent
state when no agent is assigned. -/
theorem c5_close_session_spec (s : ChatSession) (t : Int) :
    (close_session t s).status = "closed" ∧
    (close_session t s).closed_at = some t ∧
    (close_session t s).total_duration_seconds = some (t - s.created_at) ∧
    (close_session t s).assigned_agent
      = Option.map decrement_chat_count s.assigned_agent ∧
    (s.assigned_agent = none →
      close_session t s =
        { s with status := "closed", closed_at := some t,
                 total_duration_seconds := some (t - s.created_at) }) ∧
    (∀ a : User, 0 < a.current_chats_count →
      (decrement_chat_count a).current_chats_count
        = a.current_chats_count - 1) ∧
    (∀ a : User, ¬ 0 < a.current_chats_count → decrement_chat_count a = a) := by
  refine ⟨?_, ?_, ?_, ?_, ?_, ?_, ?_⟩
  · unfold close_session
    cases s.assigned_agent <;> simp
  · unfold close_session
    cases s.assigned_agent <;> simp
  · unfold close_session
    cases s.assigned_agent <;> simp
  · unfold close_session
    cases s.assigned_agent <;> simp
  · intro h
    unfold close_session
    simp [h]
  · intro a ha
    unfold decrement_chat_count
    rw [if_pos ha]
  · intro a ha
    unfold decrement_chat_count
    rw [if_neg ha]

/-- C5 witness: closing `sessionA` at time 10 decrements `agentA`'s count
from 2 to 1. -/
theorem c5_close_session_witness :
    (close_session 10 sessionA).assigned_agent
      = some (decrement_chat_count agentA) ∧
    (decrement_chat_count agentA).current_chats_count
      = agentA.current_chats_count - 1 := by
  obtain ⟨h1, h2, h3, h4, h5, h6, h7⟩ := c5_close_session_spec sessionA 10
  exact ⟨h4, h6 agentA (by decide)⟩

/-- C6: `mark_abandoned` flips a waiting session to abandoned (setting the
flag) and is a strict no-op in every other status. -/
theorem c6_mark_abandoned_guarded (s : ChatSession) :
    (s.status = "waiting" →
      mark_abandoned s = { s with is_abandoned := true, status := "abandoned" }) ∧
    (s.status ≠ "waiting" → mark_abandoned s = s) := by
  constructor <;> intro h <;> unfold mark_abandoned <;> simp [h]

/-- C6 witness: applied to the waiting session and to the active session. -/
theorem c6_mark_abandoned_witness :
    mark_abandoned sessionWaiting =
      { sessionWaiting with is_abandoned := true, status := "abandoned" } ∧
    mark_abandoned sessionA = sessionA :=
  ⟨(c6_mark_abandoned_guarded sessionWaiting).1 rfl,
   (c6_mark_abandoned_guarded sessionA).2 (by decide)⟩

/-- C7: `calculate_wait_time` writes `first_response_at - created_at` into
`wait_time_seconds` exactly when `first_response_at` is set and status is in
assigned/active/closed, changes nothing otherwise, and is idempotent — a
repeated call recomputes the same value from the unchanged
`first_response_at` and `created_at`, so the metric never changes once
computed. -/
theorem c7_calculate_wait_time_spec (s : ChatSession) :
    (∀ fr : Int, s.first_response_at = some fr →
      s.status ∈ ["assigned", "active", "closed"] →
      calculate_wait_time s =
        { s with wait_time_seconds := some (fr - s.created_at) }) ∧
    (s.first_response_at = none → calculate_wait_time s = s) ∧
    (s.status ∉ ["assigned", "active", "closed"] → calculate_wait_time s = s) ∧
    calculate_wait_time (calculate_wait_time s) = calculate_wait_time s := by
  refine ⟨?_, ?_, ?_, ?_⟩
  · intro fr hfr hst
    exact calculate_wait_time_write s fr hfr hst
  · intro h
    exact calculate_wait_time_noop s (Or.inl h)
  · intro h
    exact calculate_wait_time_noop s (Or.inr h)
  · rcases hf : s.first_response_at with _ | fr
    · have h1 := calculate_wait_time_noop s (Or.inl hf)
      rw [h1]
      exact h1
    · by_cases hst : s.status ∈ ["assigned", "active", "closed"]
      · rw [calculate_wait_time_write s fr hf hst]
        exact calculate_wait_time_write _ fr hf hst
      · have h1 := calculate_wait_time_noop s (Or.inr hst)
        rw [h1]
        exact h1

/-- C7 witness: on the assigned session the wait time becomes
`first_response_at - created_at = 4`, and a second call is a no-op. -/
theorem c7_calculate_wait_time_witness :
    calculate_wait_time sessionAssigned =
      { sessionAssigned with wait_time_seconds := some 4 } ∧
    calculate_wait_time (calculate_wait_time sessionAssigned)
      = calculate_wait_time sessionAssigned := by
  obtain ⟨h1, h2, h3, h4⟩ := c7_calculate_wait_time_spec sessionAssigned
  exact ⟨h1 4 rfl (by decide), h4⟩

/-- C8: under the `ChatQueue` Meta ordering (priority descending, queue-entry
time ascending), the first entry of any non-empty set of entries is one with
maximal numeric priority and, among entries of equal priority, the earliest
`entered_queue_at`; and any urgent-priority entry precedes any
normal-priority entry regardless of entry times. -/
theorem c8_queue_order_spec (l : List ChatQueue) (e : ChatQueue)
    (h : (List.insertionSort queueBefore l).head? = some e) :
    e ∈ l ∧
    (∀ x ∈ l, x.priority ≤ e.priority) ∧
    (∀ x ∈ l, x.priority = e.priority →
      e.entered_queue_at ≤ x.entered_queue_at) ∧
    (∀ a b : ChatQueue, a.priority = priorityNum "urgent" →
      b.priority = priorityNum "normal" → queueBefore a b) := by
  have hperm := List.perm_insertionSort queueBefore l
  have hsort := List.sorted_insertionSort queueBefore l
  cases hs : List.insertionSort queueBefore l with
  | nil =>
      rw [hs] at h
      simp at h
  | cons a t =>
      rw [hs] at h hperm hsort
      have he : a = e := by simpa using h
      rw [he] at hperm hsort
      have hrel : ∀ x ∈ t, queueBefore e x := List.rel_of_sorted_cons hsort
      refine ⟨?_, ?_, ?_, ?_⟩
      · exact hperm.subset (List.mem_cons_self e t)
      · intro x hx
        rcases List.mem_cons.mp (hperm.mem_iff.mpr hx) with h1 | h1
        · subst h1
          exact le_rfl
        · rcases hrel x h1 with h2 | ⟨h2, _⟩
          · exact le_of_lt h2
          · exact le_of_eq h2.symm
      · intro x hx hpx
        rcases List.mem_cons.mp (hperm.mem_iff.mpr hx) with h1 | h1
        · subst h1
          exact le_rfl
        · rcases hrel x h1 with h2 | ⟨h2, h2t⟩
          · omega
          · exact h2t
      · intro a b ha hb
        left
        rw [ha, hb]
        decide

/-- C8 witness: with entries normal-then-urgent (the urgent one entering
later), the queue's first entry is the urgent one, which carries maximal
priority. -/
theorem c8_queue_order_witness :
    urgentEntry ∈ [normalEntry, urgentEntry] ∧
    (∀ x ∈ [normalEntry, urgentEntry], x.priority ≤ urgentEntry.priority) := by
  obtain ⟨h1, h2, h3, h4⟩ :=
    c8_queue_order_spec [normalEntry, urgentEntry] urgentEntry (by decide)
  exact ⟨h1, h2⟩

/-- C9: `generate_resume_token` stamps the expiry exactly 24 hours (86400
seconds) after the generation time and stores the token;
`is_resume_token_valid` is true iff a non-empty token and an expiry are both
set and the current time is strictly before the expiry — in particular it is
false whenever either field is null. -/
theorem c9_resume_token_spec (s : ChatSession) (t : Int) (tok : String) :
    (generate_resume_token t tok s).resume_token = some tok ∧
    (generate_resume_token t tok s).resume_token_expires_at
      = some (t + 24 * 3600) ∧
    (is_resume_token_valid t s = true ↔
      (∃ tk, s.resume_token = some tk ∧ tk ≠ "") ∧
      (∃ e, s.resume_token_expires_at = some e ∧ t < e)) ∧
    (s.resume_token = none → is_resume_token_valid t s = false) ∧
    (s.resume_token_expires_at = none → is_resume_token_valid t s = false) := by
  refine ⟨rfl, rfl, ?_, ?_, ?_⟩
  · unfold is_resume_token_valid
    rcases htk : s.resume_token with _ | tk
    · rcases he : s.resume_token_expires_at with _ | e <;> simp
    · rcases he : s.resume_token_expires_at with _ | e
      · simp
      · by_cases h0 : tk = "" <;> simp [h0]
  · intro h
    unfold is_resume_token_valid
    rw [h]
  · intro h
    unfold is_resume_token_valid
    rw [h]
    rcases s.resume_token with _ | tk <;> rfl

/-- C9 witness: the token of `sessionToken` (expiring at 100) is valid at
time 50, and a session with no token is always invalid. -/
theorem c9_resume_token_witness :
    is_resume_token_valid 50 sessionToken = true ∧
    is_resume_token_valid 50 sessionA = false := by
  obtain ⟨g1, g2, h3, h4, h5⟩ := c9_resume_token_spec sessionToken 50 "x"
  obtain ⟨g1c, g2c, h3c, h4c, h5c⟩ := c9_resume_token_spec sessionA 50 "x"
  exact ⟨h3.mpr ⟨⟨"abc", rfl, by decide⟩, ⟨100, rfl, by decide⟩⟩, h4c rfl⟩

/-- Helper: `total_chats_handled` never decreases along any sequence of
registry operations. -/
theorem applyRegistryOps_total_mono (ops : List RegistryOp) :
    ∀ u : User,
      u.total_chats_handled ≤ (applyRegistryOps u ops).total_chats_handled := by
  induction ops with
  | nil =>
      intro u
      exact le_rfl
  | cons op rest ih =>
      intro u
      have h1 : u.total_chats_handled
          ≤ (applyRegistryOp u op).total_chats_handled := by
        cases op
        · show u.total_chats_handled ≤ u.total_chats_handled + 1
          omega
        · show u.total_chats_handled
            ≤ (decrement_chat_count u).total_chats_handled
          unfold decrement_chat_count
          split <;> exact le_rfl
      exact h1.trans (ih (applyRegistryOp u op))

/-- C10: `decrement_chat_count` writes only `current_chats_count` (every
other field, `total_chats_handled` included, is carried over unchanged),
`increment_chat_count` adds one to `total_chats_handled`, and
`total_chats_handled` is monotone non-decreasing under any sequence of
registry increments and decrements. -/
theorem c10_registry_frame_monotone (u : User) (ops : List RegistryOp) :
    decrement_chat_count u =
      { u with current_chats_count :=
                 (decrement_chat_count u).current_chats_count } ∧
    (increment_chat_count u).total_chats_handled
      = u.total_chats_handled + 1 ∧
    (decrement_chat_count u).total_chats_handled = u.total_chats_handled ∧
    u.total_chats_handled ≤ (applyRegistryOps u ops).total_chats_handled := by
  refine ⟨?_, rfl, ?_, applyRegistryOps_total_mono ops u⟩
  · unfold decrement_chat_count
    split <;> rfl
  · unfold decrement_chat_count
    split <;> rfl

end Mmeink
